import Mathlib

/-!
Verification of the cross-contract balance-query core of the
`near-x/near-defi-recipes` contract (`src/contract/src/lib.rs`).

The contract schedules a remote `ft_balance_of` call on a fungible-token
contract and chains an `on_get_balance` callback on itself.  The callback
authenticates the caller, requires exactly one delivered promise result,
decodes the successful payload as a JSON-encoded `U128` (a decimal number
wrapped in a JSON string) with a lenient fallback to zero, and logs the
received balance.

Bytes are modelled as `List Nat` (byte values).  All protocol strings are
ASCII, so the UTF-8 bytes of a string coincide with its code points.
-/

namespace NearDefi

/-- `const GAS_BASE_COMPUTE: Gas = 5_000_000_000_000;` -/
def GAS_BASE_COMPUTE : Nat := 5000000000000

/-- `const NO_DEPOSIT: u128 = 0;` -/
def NO_DEPOSIT : Nat := 0

/-- The UTF-8 bytes of an ASCII string, as a list of byte values.  All
strings appearing in the contract's protocol (method names, account ids,
JSON payloads) are ASCII, so the byte sequence equals the code points. -/
def asciiBytes (s : String) : List Nat :=
  s.data.map Char.toNat

/-- `near_sdk::PromiseResult`: the tagged outcome delivered to a callback. -/
inductive PromiseResult where
  | NotReady : PromiseResult
  | Successful : List Nat → PromiseResult
  | Failed : PromiseResult
deriving DecidableEq, Repr

/-- The ambient host environment visible to a single contract invocation:
`env::predecessor_account_id()`, `env::current_account_id()`, and the
delivered promise results (`env::promise_results_count()` is the length,
`env::promise_result(i)` indexes the list). -/
structure Env where
  predecessor_account_id : String
  current_account_id : String
  promise_results : List PromiseResult
deriving Repr

/-- The contract state: `pub struct Welcome { records: HashMap<String, String> }`.
The map is modelled as an association list; only its identity matters for
the claims (no operation in the core reads or writes it). -/
structure Welcome where
  records : List (String × String)
deriving DecidableEq, Repr

/-! ### The external JSON codec boundary: `serde_json::from_slice::<U128>`

`near_sdk::json_types::U128` deserializes from a JSON string holding a
decimal number (`"42"`), via `u128::from_str_radix(_, 10)`.  The model
below follows `serde_json`'s grammar at this boundary: optional
surrounding whitespace, a double-quoted string, nothing but whitespace
after it; any other top-level token (in particular a bare JSON number)
fails, because `U128` only deserializes from strings.  JSON escape
sequences inside the string are modelled as decode failure; no decimal
payload contains them, and a string containing an escape can never be a
plain decimal, so the composed decoder agrees with the code on every
payload the claims quantify over. -/

/-- JSON insignificant whitespace bytes: space, tab, newline, carriage return. -/
def isWs (c : Nat) : Bool :=
  c = 32 || c = 9 || c = 10 || c = 13

/-- Drop leading JSON whitespace. -/
def skipWs : List Nat → List Nat
  | [] => []
  | c :: r => if isWs c then skipWs r else c :: r

/-- Scan the content of a JSON string after the opening quote: returns the
content bytes and the remainder after the closing quote.  Raw control
characters are rejected (as `serde_json` does); escape sequences and
non-ASCII bytes are modelled as failure (see the section comment). -/
def scanString : List Nat → Option (List Nat × List Nat)
  | [] => none
  | c :: r =>
    if c = 34 then some ([], r)
    else if c = 92 ∨ c < 32 ∨ c > 126 then none
    else match scanString r with
      | some (s, rest) => some (c :: s, rest)
      | none => none

/-- ASCII decimal digit. -/
def isDigit (c : Nat) : Bool :=
  48 ≤ c && c ≤ 57

/-- Numeric value of a digit-byte string, most significant digit first. -/
def digitsToNat (ds : List Nat) : Nat :=
  ds.foldl (fun a c => a * 10 + (c - 48)) 0

/-- `u128::from_str_radix(s, 10)` on the content bytes of the JSON string:
an optional leading `+`, then a nonempty run of decimal digits whose value
fits in `u128`; anything else is an error. -/
def fromStrRadix10 (cs : List Nat) : Option Nat :=
  let ds := if cs.head? = some 43 then cs.tail else cs
  if ds ≠ [] ∧ ds.all isDigit then
    if digitsToNat ds < 2 ^ 128 then some (digitsToNat ds) else none
  else none

/-- `serde_json::from_slice::<U128>(bytes)`: succeeds exactly when the
bytes are a JSON document whose single top-level value is a string whose
content parses as a `u128` in base 10. -/
def from_slice_U128 (bytes : List Nat) : Option Nat :=
  match skipWs bytes with
  | [] => none
  | c :: r =>
    if c = 34 then
      match scanString r with
      | some (content, rest) =>
        if skipWs rest = [] then fromStrRadix10 content else none
      | none => none
    else none

/-! ### The contract operations -/

/-- `fn get_promise_result() -> U128`: asserts exactly one delivered
result (`"Contract expected a result on the callback"`), then decodes a
`Successful` payload with `unwrap_or(U128(0))`, and panics with
`"Promise was not successful"` on `Failed` / `NotReady`.  Panics are
modelled as `Except.error` carrying the panic message. -/
def get_promise_result (env : Env) : Except String Nat :=
  match env.promise_results with
  | [PromiseResult.Successful x] => Except.ok ((from_slice_U128 x).getD 0)
  | [_] => Except.error "Promise was not successful"
  | _ => Except.error "Contract expected a result on the callback"

/-- `pub fn on_get_balance(&self)`: asserts
`env::predecessor_account_id() == env::current_account_id()`
(`"Callback can only be called from the contract"`), retrieves the promise
result, and logs `"The received balance is {balance.0}"`.  The method takes
`&self`; the state is threaded through unchanged, paired with either the
emitted log records or the panic message (a panic aborts the execution
unit and commits no effects). -/
def on_get_balance (self : Welcome) (env : Env) :
    Welcome × Except String (List String) :=
  (self,
   if env.predecessor_account_id ≠ env.current_account_id then
     Except.error "Callback can only be called from the contract"
   else
     match get_promise_result env with
     | Except.error e => Except.error e
     | Except.ok balance =>
       Except.ok ["The received balance is " ++ toString balance])

/-! ### Promise construction -/

/-- One `function_call` action: method name bytes, argument bytes,
attached deposit, and gas budget. -/
structure FunctionCall where
  method_name : List Nat
  arguments : List Nat
  deposit : Nat
  gas : Nat
deriving DecidableEq, Repr

/-- The two-leg promise chain built by the entry points: a remote call on
`target` followed (`.then`) by a callback on `then_target`. -/
structure PromiseChain where
  target : String
  call : FunctionCall
  then_target : String
  then_call : FunctionCall
deriving DecidableEq, Repr

/-- JSON string literal for an account id.  `serde_json` escapes `"` and
`\`; pre-validated account ids contain neither (nor control characters),
so no other escape arises. -/
def jsonStringLit (s : String) : String :=
  "\"" ++ String.mk (s.data.flatMap fun c =>
    if c = '"' then ['\\', '"']
    else if c = '\\' then ['\\', '\\']
    else [c]) ++ "\""

/-- `serde_json::to_vec(&json!({"account_id": account_id})).unwrap()`:
the argument payload built manually by `get_ft_balance1`. -/
def json_macro_args (account_id : String) : List Nat :=
  asciiBytes ("\x7b\"account_id\":" ++ jsonStringLit account_id ++ "\x7d")

/-- The argument payload serialized by the `#[ext_contract]`-generated
binding for `ft_balance_of(account_id)`: the derived serializer of the
one-field argument struct, i.e. a JSON object with the single key
`account_id` mapped to the JSON string of the account id. -/
def ext_ft_balance_of_args (account_id : String) : List Nat :=
  asciiBytes ("\x7b" ++ jsonStringLit "account_id" ++ ":"
    ++ jsonStringLit account_id ++ "\x7d")

/-- The argument payload serialized by the `#[ext_contract(ext_self)]`
binding for the zero-argument `on_get_balance`: the empty JSON object. -/
def ext_self_no_args : List Nat :=
  asciiBytes "\x7b\x7d"

/-- `pub fn get_ft_balance1(&self, contract_id, account_id) -> Promise`:
manually builds `Promise::new(contract_id).function_call(b"ft_balance_of",
json!({"account_id": account_id}), NO_DEPOSIT, GAS_BASE_COMPUTE)` then
chains `ext_self::on_get_balance(&env::current_account_id(), NO_DEPOSIT,
GAS_BASE_COMPUTE)`.  `&self`: state returned unchanged. -/
def get_ft_balance1 (self : Welcome) (env : Env)
    (contract_id account_id : String) : Welcome × PromiseChain :=
  (self,
   { target := contract_id
     call :=
       { method_name := asciiBytes "ft_balance_of"
         arguments := json_macro_args account_id
         deposit := NO_DEPOSIT
         gas := GAS_BASE_COMPUTE }
     then_target := env.current_account_id
     then_call :=
       { method_name := asciiBytes "on_get_balance"
         arguments := ext_self_no_args
         deposit := NO_DEPOSIT
         gas := GAS_BASE_COMPUTE } })

/-- `pub fn get_ft_balance2(&self, contract_id, account_id) -> Promise`:
invokes the typed binding `ext_fungible_token::ft_balance_of(account_id,
contract_id, NO_DEPOSIT, GAS_BASE_COMPUTE)` — which expands to
`Promise::new(contract_id).function_call(b"ft_balance_of", <serialized
args>, NO_DEPOSIT, GAS_BASE_COMPUTE)` — then chains the same
`ext_self::on_get_balance` callback.  `&self`: state returned unchanged. -/
def get_ft_balance2 (self : Welcome) (env : Env)
    (contract_id account_id : String) : Welcome × PromiseChain :=
  (self,
   { target := contract_id
     call :=
       { method_name := asciiBytes "ft_balance_of"
         arguments := ext_ft_balance_of_args account_id
         deposit := NO_DEPOSIT
         gas := GAS_BASE_COMPUTE }
     then_target := env.current_account_id
     then_call :=
       { method_name := asciiBytes "on_get_balance"
         arguments := ext_self_no_args
         deposit := NO_DEPOSIT
         gas := GAS_BASE_COMPUTE } })

/-! ### Decoder lemmas -/

/-- Scanning a run of digit bytes followed by a closing quote yields the
digits as content and consumes the input. -/
theorem scanString_digits (ds : List Nat) (h : ds.all isDigit = true) :
    scanString (ds ++ [34]) = some (ds, []) := by
  induction ds with
  | nil => simp [scanString]
  | cons c r ih =>
    rw [List.all_cons, Bool.and_eq_true] at h
    have hc : 48 ≤ c ∧ c ≤ 57 := by
      have := h.1
      simp only [isDigit, Bool.and_eq_true, decide_eq_true_eq] at this
      exact this
    have h34 : ¬ c = 34 := by omega
    have hesc : ¬ (c = 92 ∨ c < 32 ∨ c > 126) := by omega
    simp [scanString, h34, hesc, ih h.2]

/-- `u128::from_str_radix` succeeds on a nonempty digit run whose value
fits in `u128`. -/
theorem fromStrRadix10_digits (ds : List Nat) (h1 : ds ≠ [])
    (h2 : ds.all isDigit = true) (h3 : digitsToNat ds < 2 ^ 128) :
    fromStrRadix10 ds = some (digitsToNat ds) := by
  cases ds with
  | nil => exact absurd rfl h1
  | cons c r =>
    have hc : 48 ≤ c ∧ c ≤ 57 := by
      rw [List.all_cons, Bool.and_eq_true] at h2
      have := h2.1
      simp only [isDigit, Bool.and_eq_true, decide_eq_true_eq] at this
      exact this
    have h43 : ¬ c = 43 := by omega
    rw [fromStrRadix10]
    simp only [List.head?, Option.some.injEq, h43, if_false]
    simp [h2]
    exact h3

/-- `from_slice_U128` on a quoted digit run decodes to the digits' value. -/
theorem from_slice_U128_quoted_digits (ds : List Nat) (h1 : ds ≠ [])
    (h2 : ds.all isDigit = true) (h3 : digitsToNat ds < 2 ^ 128) :
    from_slice_U128 (34 :: (ds ++ [34])) = some (digitsToNat ds) := by
  have hskip : skipWs (34 :: (ds ++ [34])) = 34 :: (ds ++ [34]) := by
    simp [skipWs, isWs]
  rw [from_slice_U128, hskip]
  simp [scanString_digits ds h2, skipWs, fromStrRadix10_digits ds h1 h2 h3]

/-- `from_slice_U128` fails on a bare (unquoted) digit run: `U128` only
deserializes from a JSON string, never from a JSON number. -/
theorem from_slice_U128_digits_none (ds : List Nat) (h1 : ds ≠ [])
    (h2 : ds.all isDigit = true) : from_slice_U128 ds = none := by
  cases ds with
  | nil => exact absurd rfl h1
  | cons c r =>
    have hc : 48 ≤ c ∧ c ≤ 57 := by
      rw [List.all_cons, Bool.and_eq_true] at h2
      have := h2.1
      simp only [isDigit, Bool.and_eq_true, decide_eq_true_eq] at this
      exact this
    have hws : isWs c = false := by
      simp only [isWs, Bool.or_eq_false_iff, decide_eq_false_iff_not]
      omega
    have hskip : skipWs (c :: r) = c :: r := by
      simp [skipWs, hws]
    have h34 : ¬ c = 34 := by omega
    rw [from_slice_U128, hskip]
    simp [h34]

/-! ### Claim theorems -/

/-- C1.  Whenever the immediate caller (`predecessor_account_id`) differs
from the current contract identity, `on_get_balance` aborts with the
authorization error `"Callback can only be called from the contract"`,
for every state and every list of delivered outcomes. -/
theorem on_get_balance_auth_abort (self : Welcome) (env : Env)
    (h : env.predecessor_account_id ≠ env.current_account_id) :
    on_get_balance self env =
      (self, Except.error "Callback can only be called from the contract") := by
  simp [on_get_balance, h]

/-- Witness for C1: caller `"mallory"`, current `"alice_near"`, with a
successful outcome present. -/
theorem on_get_balance_auth_abort_witness :
    on_get_balance ⟨[]⟩
      ⟨"mallory", "alice_near", [PromiseResult.Successful (asciiBytes "\"42\"")]⟩ =
      (⟨[]⟩, Except.error "Callback can only be called from the contract") :=
  on_get_balance_auth_abort ⟨[]⟩
    ⟨"mallory", "alice_near", [PromiseResult.Successful (asciiBytes "\"42\"")]⟩
    (by decide)

/-- C2.  With caller = current identity and exactly one delivered outcome
`Successful` of a quoted decimal string, `on_get_balance` does not abort
and emits exactly one log record reporting the decoded value. -/
theorem on_get_balance_reports_decoded_balance (self : Welcome) (env : Env)
    (ds : List Nat)
    (hpred : env.predecessor_account_id = env.current_account_id)
    (hres : env.promise_results = [PromiseResult.Successful (34 :: (ds ++ [34]))])
    (h1 : ds ≠ []) (h2 : ds.all isDigit = true)
    (h3 : digitsToNat ds < 2 ^ 128) :
    on_get_balance self env =
      (self, Except.ok ["The received balance is " ++ toString (digitsToNat ds)]) := by
  simp [on_get_balance, hpred, get_promise_result, hres,
    from_slice_U128_quoted_digits ds h1 h2 h3]

/-- Witness for C2: the end-to-end scenario with payload `b"\"1000\""`
under caller = current = `"alice_near"` yields the report
`"The received balance is 1000"`. -/
theorem on_get_balance_reports_decoded_balance_witness :
    on_get_balance ⟨[]⟩
      ⟨"alice_near", "alice_near",
       [PromiseResult.Successful (34 :: ([49, 48, 48, 48] ++ [34]))]⟩ =
      (⟨[]⟩, Except.ok ["The received balance is 1000"]) :=
  (on_get_balance_reports_decoded_balance ⟨[]⟩
    ⟨"alice_near", "alice_near",
     [PromiseResult.Successful (34 :: ([49, 48, 48, 48] ++ [34]))]⟩
    [49, 48, 48, 48] rfl rfl (by decide) (by decide) (by decide)).trans (by rfl)

/-- C3.  With caller = current identity and exactly one delivered outcome
that is `Failed` or `NotReady`, `on_get_balance` aborts with
`"Promise was not successful"` and emits no balance report. -/
theorem on_get_balance_remote_failure_abort (self : Welcome) (env : Env)
    (r : PromiseResult)
    (hpred : env.predecessor_account_id = env.current_account_id)
    (hres : env.promise_results = [r])
    (hr : r = PromiseResult.Failed ∨ r = PromiseResult.NotReady) :
    on_get_balance self env =
      (self, Except.error "Promise was not successful") := by
  rcases hr with hr | hr <;>
    simp [on_get_balance, hpred, get_promise_result, hres, hr]

/-- Witness for C3: a `Failed` outcome under caller = current identity. -/
theorem on_get_balance_remote_failure_abort_witness :
    on_get_balance ⟨[]⟩ ⟨"alice_near", "alice_near", [PromiseResult.Failed]⟩ =
      (⟨[]⟩, Except.error "Promise was not successful") :=
  on_get_balance_remote_failure_abort ⟨[]⟩
    ⟨"alice_near", "alice_near", [PromiseResult.Failed]⟩
    PromiseResult.Failed rfl rfl (Or.inl rfl)

/-- C4.  With caller = current identity and exactly one delivered outcome
`Successful bytes` whose payload does not decode as a `U128`,
`on_get_balance` does not abort and reports the fallback value `0`. -/
theorem on_get_balance_decode_fallback_zero (self : Welcome) (env : Env)
    (bytes : List Nat)
    (hpred : env.predecessor_account_id = env.current_account_id)
    (hres : env.promise_results = [PromiseResult.Successful bytes])
    (hdec : from_slice_U128 bytes = none) :
    on_get_balance self env =
      (self, Except.ok ["The received balance is 0"]) := by
  simp [on_get_balance, hpred, get_promise_result, hres, hdec]
  rfl

/-- Witness for C4: payload `b"not-a-number"`. -/
theorem on_get_balance_decode_fallback_zero_witness :
    on_get_balance ⟨[]⟩
      ⟨"alice_near", "alice_near",
       [PromiseResult.Successful (asciiBytes "not-a-number")]⟩ =
      (⟨[]⟩, Except.ok ["The received balance is 0"]) :=
  on_get_balance_decode_fallback_zero ⟨[]⟩
    ⟨"alice_near", "alice_near",
     [PromiseResult.Successful (asciiBytes "not-a-number")]⟩
    (asciiBytes "not-a-number") rfl rfl (by decide)

/-- C5 counterexample.  The claim asserts that with zero delivered
outcomes the abort is the outcome-shape error independently of caller
identity; but with caller `"mallory"` ≠ current `"alice_near"` and zero
outcomes, `on_get_balance` aborts with the authorization error instead. -/
theorem on_get_balance_count_abort_counterexample :
    (on_get_balance ⟨[]⟩ ⟨"mallory", "alice_near", []⟩).2 ≠
        Except.error "Contract expected a result on the callback" ∧
      (on_get_balance ⟨[]⟩ ⟨"mallory", "alice_near", []⟩).2 =
        Except.error "Callback can only be called from the contract" := by
  refine ⟨fun h => ?_, rfl⟩
  rw [show (on_get_balance ⟨[]⟩ ⟨"mallory", "alice_near", []⟩).2 =
      Except.error "Callback can only be called from the contract" from rfl] at h
  injection h with h2
  exact absurd h2 (by decide)

/-- C5 (amended).  When the caller identity equals the current contract
identity, invoking `on_get_balance` with exactly zero or exactly two
delivered outcomes aborts with the outcome-shape error
`"Contract expected a result on the callback"`. -/
theorem on_get_balance_count_abort_when_authenticated (self : Welcome)
    (env : Env)
    (hpred : env.predecessor_account_id = env.current_account_id)
    (hcount : env.promise_results.length = 0 ∨ env.promise_results.length = 2) :
    on_get_balance self env =
      (self, Except.error "Contract expected a result on the callback") := by
  cases hl : env.promise_results with
  | nil => simp [on_get_balance, hpred, get_promise_result, hl]
  | cons a t =>
    cases t with
    | nil => rw [hl] at hcount; simp at hcount
    | cons b t2 => simp [on_get_balance, hpred, get_promise_result, hl]

/-- Witness for amended C5: zero outcomes under caller = current identity. -/
theorem on_get_balance_count_abort_when_authenticated_witness :
    on_get_balance ⟨[]⟩ ⟨"alice_near", "alice_near", []⟩ =
      (⟨[]⟩, Except.error "Contract expected a result on the callback") :=
  on_get_balance_count_abort_when_authenticated ⟨[]⟩
    ⟨"alice_near", "alice_near", []⟩ rfl (Or.inl rfl)

/-- C6.  For every state, environment and pair of identities, the two
entry points build identical promise chains: same target, same method
name, same encoded argument payload, same deposit, same gas, and the same
chained `on_get_balance` callback. -/
theorem get_ft_balance_variants_equal (self : Welcome) (env : Env)
    (contract_id account_id : String) :
    get_ft_balance1 self env contract_id account_id =
      get_ft_balance2 self env contract_id account_id := by
  simp [get_ft_balance1, get_ft_balance2, json_macro_args,
    ext_ft_balance_of_args, jsonStringLit]

/-- C7.  Both entry points attach `GAS_BASE_COMPUTE` as the gas budget and
a zero deposit (`NO_DEPOSIT = 0`) on both the remote-call leg and the
callback leg of the chain they build. -/
theorem get_ft_balance_budgets_fixed (self : Welcome) (env : Env)
    (contract_id account_id : String) :
    ((get_ft_balance1 self env contract_id account_id).2.call.gas = GAS_BASE_COMPUTE ∧
     (get_ft_balance1 self env contract_id account_id).2.then_call.gas = GAS_BASE_COMPUTE ∧
     (get_ft_balance1 self env contract_id account_id).2.call.deposit = 0 ∧
     (get_ft_balance1 self env contract_id account_id).2.then_call.deposit = 0) ∧
    ((get_ft_balance2 self env contract_id account_id).2.call.gas = GAS_BASE_COMPUTE ∧
     (get_ft_balance2 self env contract_id account_id).2.then_call.gas = GAS_BASE_COMPUTE ∧
     (get_ft_balance2 self env contract_id account_id).2.call.deposit = 0 ∧
     (get_ft_balance2 self env contract_id account_id).2.then_call.deposit = 0) :=
  ⟨⟨rfl, rfl, rfl, rfl⟩, ⟨rfl, rfl, rfl, rfl⟩⟩

/-- C8.  Every public operation takes the state by shared reference and
returns the records map unchanged, on success and abort paths alike. -/
theorem methods_preserve_records (self : Welcome) (env : Env)
    (contract_id account_id : String) :
    (get_ft_balance1 self env contract_id account_id).1.records = self.records ∧
    (get_ft_balance2 self env contract_id account_id).1.records = self.records ∧
    (on_get_balance self env).1.records = self.records :=
  ⟨rfl, rfl, rfl⟩

/-- C9.  The authentication check precedes the outcome-count check: when
the caller differs from the current identity and the outcome count is not
one, the abort carries the authorization message, not the shape message. -/
theorem on_get_balance_auth_checked_first (self : Welcome) (env : Env)
    (hpred : env.predecessor_account_id ≠ env.current_account_id)
    (hcount : env.promise_results.length ≠ 1) :
    on_get_balance self env =
      (self, Except.error "Callback can only be called from the contract") := by
  simp [on_get_balance, hpred]

/-- Witness for C9: caller `"mallory"`, current `"alice_near"`, zero
outcomes: the abort is the authorization error. -/
theorem on_get_balance_auth_checked_first_witness :
    on_get_balance ⟨[]⟩ ⟨"mallory", "alice_near", []⟩ =
      (⟨[]⟩, Except.error "Callback can only be called from the contract") :=
  on_get_balance_auth_checked_first ⟨[]⟩ ⟨"mallory", "alice_near", []⟩
    (by decide) (by decide)

/-- C10.  With caller = current identity and exactly one delivered outcome
`Successful` of a bare (unquoted) decimal number, decoding fails — the
decoder accepts only the quoted-string encoding — and `on_get_balance`
reports `0`. -/
theorem on_get_balance_unquoted_number_reports_zero (self : Welcome)
    (env : Env) (ds : List Nat)
    (hpred : env.predecessor_account_id = env.current_account_id)
    (hres : env.promise_results = [PromiseResult.Successful ds])
    (h1 : ds ≠ []) (h2 : ds.all isDigit = true) :
    on_get_balance self env =
      (self, Except.ok ["The received balance is 0"]) := by
  simp [on_get_balance, hpred, get_promise_result, hres,
    from_slice_U128_digits_none ds h1 h2]
  rfl

/-- Witness for C10: payload `b"42"` (bytes `[52, 50]`) reports `0`. -/
theorem on_get_balance_unquoted_number_reports_zero_witness :
    on_get_balance ⟨[]⟩
      ⟨"alice_near", "alice_near", [PromiseResult.Successful [52, 50]]⟩ =
      (⟨[]⟩, Except.ok ["The received balance is 0"]) :=
  on_get_balance_unquoted_number_reports_zero ⟨[]⟩
    ⟨"alice_near", "alice_near", [PromiseResult.Successful [52, 50]]⟩
    [52, 50] rfl rfl (by decide) (by decide)

end NearDefi
